import Mathlib

/-!
Shallow embedding of `Coach.py` from fast-alphazero-general: the
batched-inference coordination layer (iteration controller, batch inference
server loop, sample aggregator, checkpoint comparison/promotion logic).

Numeric tensors are modelled as lists of rationals (Python floats become
exact rationals; every comparison the proofs rely on is exact in both).
The neural network forward pass `nnet.process` is an external collaborator
and appears as a function parameter.  Fallible Python code (raising
`ZeroDivisionError` or a failed checkpoint load) is modelled with `Except`.
-/

namespace FastAlphaZero

/-- One completed self-play training example, as enqueued on `file_queue`:
a `(data, policy, value)` triple (`SelfPlayAgent` puts these;
`saveIterationSamples` drains them).  Board tensors are flattened to lists. -/
structure GameRecord where
  data : List Int
  policy : List Rat
  value : Rat
deriving DecidableEq, Repr

/-- The triple of tensors persisted by `saveIterationSamples` via the three
`torch.save` calls (`iteration-NNNN-data/policy/value.pkl`). -/
structure PersistedDataset where
  dataT : List (List Int)
  policyT : List (List Rat)
  valueT : List Rat
deriving DecidableEq, Repr

/-- The drain loop of `saveIterationSamples` (Coach.py lines 113-122):
`while i < self.file_queue.qsize(): data, policy, value =
file_queue.get(timeout=1); ...; i += 1`.  The bound `qsize()` is
re-evaluated against the live queue on every check, and the queue shrinks
by one on every `get`, so the check at step `i` compares `i` against the
count of records still enqueued: with `n` records initially, the loop
stops once `i` reaches the remaining count, after draining only the first
half (rounded up) of the records.  The first argument is `i`, the second
the records still enqueued at the moment of the check; record `i` is
written into row `i` of the three preallocated buffers.  The
`except Empty: pass` branch (a `get` racing an exhausted queue) cannot
fire in this sequential model, since the check `i < 0` already ends the
loop on an empty queue — the `[]` case. -/
def drainLoop :
    Nat → List GameRecord → List (List Int) × List (List Rat) × List Rat →
    List (List Int) × List (List Rat) × List Rat
  | _, [], bufs => bufs
  | i, r :: rest, (dT, pT, vT) =>
    if i < (r :: rest).length then
      drainLoop (i + 1) rest (dT.set i r.data, pT.set i r.policy, vT.set i r.value)
    else
      (dT, pT, vT)

/-- `Coach.saveIterationSamples` (Coach.py lines 108-126): allocate three
zero buffers of `file_queue.qsize()` rows (lines 110-112 run before any
`get`, so this is the full initial count), drain the queue into them with
the live-bound loop above, and persist `tensor[:1]` of each (the
`torch.save(data_tensor[:1], ...)` calls).  `q` is the contents of
`file_queue` at the moment draining begins. -/
def saveIterationSamples (q : List GameRecord) : PersistedDataset :=
  let n := q.length
  let bufs := drainLoop 0 q
    (List.replicate n ([] : List Int), List.replicate n ([] : List Rat),
     List.replicate n (0 : Rat))
  { dataT := bufs.1.take 1, policyT := bufs.2.1.take 1, valueT := bufs.2.2.take 1 }

/-! ## Checkpoint store and evaluation/promotion logic -/

/-- Result triple of `arena.playGames(self.args.arenaCompare)`:
`(pwins, nwins, draws)`. -/
structure ArenaResult where
  pwins : Nat
  nwins : Nat
  draws : Nat
deriving DecidableEq, Repr

/-- Errors the modelled Python code can raise. -/
inductive PyError where
  | fileNotFound
  | zeroDivision
deriving DecidableEq, Repr

/-- The checkpoint folder: an association list from filename to saved
weights (weights are abstracted to a `Nat` identifier).  A save prepends,
so `List.lookup` finds the newest version — this models tag overwrite. -/
def saveCheckpoint (store : List (String × Nat)) (filename : String) (w : Nat) :
    List (String × Nat) :=
  (filename, w) :: store

/-- `load_checkpoint`: look the filename up; `none` models the load raising
because no such file exists. -/
def loadCheckpoint (store : List (String × Nat)) (filename : String) : Option Nat :=
  store.lookup filename

/-- The filename used for the best checkpoint throughout Coach.py. -/
def bestName : String := "iteration-best.pkl"

/-- Zero-pad to 4 digits, as in the `f'iteration-{iteration:04d}.pkl'`
format strings. -/
def pad4 (n : Nat) : String :=
  let s := toString n
  String.mk (List.replicate (4 - s.length) '0') ++ s

/-- Filename of iteration `i`'s model checkpoint. -/
def iterCheckpointName (i : Nat) : String :=
  "iteration-" ++ pad4 i ++ ".pkl"

/-- The controller state the checkpoint-related methods touch: current
network weights (`nnet`), previous-network weights (`pnet`), the checkpoint
folder, and the configured acceptance threshold. -/
structure CoachState where
  nnetW : Nat
  pnetW : Nat
  checkpoints : List (String × Nat)
  updateThreshold : Rat
deriving DecidableEq, Repr

/-- `Coach.__init__` (Coach.py lines 17-23): construct the state and
immediately save the initial network weights as `iteration-best.pkl`.
`w0` is the initial `nnet` weights, `p0` the freshly constructed `pnet`
weights. -/
def coachInit (w0 p0 : Nat) (t : Rat) : CoachState :=
  { nnetW := w0, pnetW := p0,
    checkpoints := saveCheckpoint [] bestName w0,
    updateThreshold := t }

/-- `Coach.compareToBest` (Coach.py lines 151-164): load `iteration-best`
into `pnet`, play the arena games, write win-rate telemetry
(`float(nwins) / (pwins + nwins)` — raises `ZeroDivisionError` when there
are no decisive games), then promote `nnet` to `iteration-best.pkl` unless
`pwins + nwins > 0 and float(nwins) / (pwins + nwins) < updateThreshold`. -/
def compareToBest (a : ArenaResult) (s : CoachState) : Except PyError CoachState :=
  match loadCheckpoint s.checkpoints bestName with
  | none => .error .fileNotFound
  | some w =>
    let s1 := { s with pnetW := w }
    if a.pwins + a.nwins = 0 then .error .zeroDivision
    else
      let rate : Rat := (a.nwins : Rat) / ((a.pwins : Rat) + (a.nwins : Rat))
      if 0 < a.pwins + a.nwins ∧ rate < s.updateThreshold then .ok s1
      else .ok { s1 with checkpoints := saveCheckpoint s1.checkpoints bestName s1.nnetW }

/-- `Coach.compareToRandom` (Coach.py lines 166-176): load `iteration-best`
into `pnet`, play the arena games, write win-rate telemetry (the division
at line 176 raises `ZeroDivisionError` on zero decisive games).  No
checkpoint is saved. -/
def compareToRandom (a : ArenaResult) (s : CoachState) : Except PyError CoachState :=
  match loadCheckpoint s.checkpoints bestName with
  | none => .error .fileNotFound
  | some w =>
    if a.pwins + a.nwins = 0 then .error .zeroDivision
    else .ok { s with pnetW := w }

/-- `Coach.compareToGreedy` (Coach.py lines 178-188): same shape as
`compareToRandom` — load best into `pnet`, play, write telemetry, save
nothing. -/
def compareToGreedy (a : ArenaResult) (s : CoachState) : Except PyError CoachState :=
  match loadCheckpoint s.checkpoints bestName with
  | none => .error .fileNotFound
  | some w =>
    if a.pwins + a.nwins = 0 then .error .zeroDivision
    else .ok { s with pnetW := w }

/-- The checkpoint effect of `Coach.train` (Coach.py lines 140-145):
`nnet.train` updates the current weights to `wNew`, then
`save_checkpoint(filename=f'iteration-{iteration:04d}.pkl')`. -/
def trainStep (wNew i : Nat) (s : CoachState) : CoachState :=
  { s with nnetW := wNew,
           checkpoints := saveCheckpoint s.checkpoints (iterCheckpointName i) wNew }

/-- One checkpoint-touching operation of the `learn` loop (Coach.py lines
59-62), with the externally determined data (trained weights, arena
outcomes) as payload. -/
inductive CoachOp where
  | trainOp (wNew i : Nat)
  | cmpRandom (a : ArenaResult)
  | cmpGreedy (a : ArenaResult)
  | cmpBest (a : ArenaResult)
deriving DecidableEq, Repr

/-- Apply one `learn`-loop operation; a raising operation leaves the state
as it was at the raise (no checkpoint effect happens on the error paths). -/
def applyOp (op : CoachOp) (s : CoachState) : CoachState :=
  match op with
  | .trainOp w i => trainStep w i s
  | .cmpRandom a => match compareToRandom a s with | .ok t => t | .error _ => s
  | .cmpGreedy a => match compareToGreedy a s with | .ok t => t | .error _ => s
  | .cmpBest a => match compareToBest a s with | .ok t => t | .error _ => s

/-- Any interleaving of `learn`-loop operations, applied in order. -/
def runOps (ops : List CoachOp) (s : CoachState) : CoachState :=
  ops.foldl (fun t op => applyOp op t) s

instance {α β : Type} [DecidableEq α] [DecidableEq β] : DecidableEq (Except α β) := by
  intro a b
  cases a <;> cases b
  case error.error x y =>
    exact if h : x = y then .isTrue (by rw [h]) else .isFalse (fun hh => h (by cases hh; rfl))
  case ok.ok x y =>
    exact if h : x = y then .isTrue (by rw [h]) else .isFalse (fun hh => h (by cases hh; rfl))
  case error.ok x y => exact .isFalse (fun hh => by cases hh)
  case ok.error x y => exact .isFalse (fun hh => by cases hh)

/-! ## The batch inference server loop and worker teardown -/

/-- The state touched by `processSelfPlayBatches` and `killSelfPlayAgents`:
the shared ready queue (FIFO of slot ids), the per-slot shared tensors and
readiness events (`false` = pending, `true` = ready), and the two shared
counters.  `served` is a ghost log of the slot ids the server has serviced,
in order; it is not part of the Python state and only instruments the
model. -/
structure LoopState where
  queue : List Nat
  inputT : List (List Rat)
  policyT : List (List Rat)
  valueT : List (List Rat)
  events : List Bool
  completed : Nat
  gamesPlayed : Nat
  served : List Nat
deriving DecidableEq, Repr

/-- One body of the `try` block in `processSelfPlayBatches` (Coach.py lines
81-88): attempt `ready_queue.get(timeout=1)`.  On a dequeued id, run
`nnet.process` on that slot's input tensor, copy the two outputs into that
slot's output tensors, and set that slot's event.  An empty queue is the
`Empty` timeout: `except Empty: pass`, state unchanged. -/
def serverPoll (net : List Rat → List Rat × List Rat) (s : LoopState) : LoopState :=
  match s.queue with
  | [] => s
  | id :: rest =>
    let out := net (s.inputT.getD id [])
    { s with queue := rest,
             policyT := s.policyT.set id out.1,
             valueT := s.valueT.set id out.2,
             events := s.events.set id true,
             served := s.served ++ [id] }

/-- One externally scheduled step during an iteration: a worker enqueues a
ReadySignal, a worker increments the completion counter, a worker finishes
a game, or the server performs one loop pass (condition check plus bounded
wait dequeue). -/
inductive SchedStep where
  | enqueue (id : Nat)
  | complete
  | gameDone
  | poll
deriving DecidableEq, Repr

/-- `Coach.processSelfPlayBatches` (Coach.py lines 74-97) run against an
interleaving trace: worker steps mutate the shared queue and counters; a
`poll` step first checks `while self.completed.value != self.args.workers`
and, if the loop is still live, performs one `serverPoll`.  When the check
sees `completed = workers` the method returns — any steps after that point
are not seen by this loop, and remaining queue entries stay enqueued. -/
def processSelfPlayBatches (net : List Rat → List Rat × List Rat) (workers : Nat) :
    List SchedStep → LoopState → LoopState
  | [], s => s
  | .enqueue id :: r, s =>
    processSelfPlayBatches net workers r { s with queue := s.queue ++ [id] }
  | .complete :: r, s =>
    processSelfPlayBatches net workers r { s with completed := s.completed + 1 }
  | .gameDone :: r, s =>
    processSelfPlayBatches net workers r { s with gamesPlayed := s.gamesPlayed + 1 }
  | .poll :: r, s =>
    if s.completed = workers then s
    else processSelfPlayBatches net workers r (serverPoll net s)

/-- `Coach.killSelfPlayAgents` (Coach.py lines 99-106): join every worker,
then replace each `batch_ready[i]` with a fresh (pending) event, replace
`ready_queue` with a fresh empty queue, and reset both shared counters to
fresh zero values.  The three tensor lists are untouched (buffers are
reused, never reallocated).  The ghost `served` log is untouched: joining
services nothing. -/
def killSelfPlayAgents (s : LoopState) : LoopState :=
  { s with events := List.replicate s.events.length false,
           queue := [],
           completed := 0,
           gamesPlayed := 0 }

/-- The slot/counter state as `Coach.__init__` (Coach.py lines 25-50)
creates it: zero tensors of the configured shapes (`cells` board cells and
`acts` actions per batch row, flattened), fresh pending events, empty
queue, both counters 0. -/
def freshLoopState (workers cells acts : Nat) : LoopState :=
  { queue := [],
    inputT := List.replicate workers (List.replicate cells 0),
    policyT := List.replicate workers (List.replicate acts 0),
    valueT := List.replicate workers [0],
    events := List.replicate workers false,
    completed := 0,
    gamesPlayed := 0,
    served := [] }

/-- Indistinguishability of two controller states modulo the contents of
the input/policy/value buffers (which are reused, never reallocated) and
the ghost `served` log. -/
def equivModBuffers (a b : LoopState) : Prop :=
  a.events = b.events ∧ a.queue = b.queue ∧
  a.completed = b.completed ∧ a.gamesPlayed = b.gamesPlayed

/-! ## The training window -/

/-- Python's `range(a, b)`: the list `[a, a+1, ..., b-1]` (empty when
`b ≤ a`). -/
def pyRange (a b : Nat) : List Nat :=
  List.range' a (b - a)

/-- The iteration numbers whose datasets `Coach.train` loads (Coach.py
line 130): `range(max(1, iteration - numItersForTrainExamplesHistory),
iteration + 1)`. -/
def trainWindow (iteration hist : Nat) : List Nat :=
  pyRange (max 1 (iteration - hist)) (iteration + 1)

/-- The datasets `Coach.train` hands to the trainer (before concatenation):
the dataset files of the window's iterations, read back from disk
(`dataOnDisk i` is the persisted dataset of iteration `i`). -/
def trainLoadedDatasets (dataOnDisk : Nat → List GameRecord) (iteration hist : Nat) :
    List (List GameRecord) :=
  (trainWindow iteration hist).map dataOnDisk

/-- Modelled from the spec: "hand the windowed set of the most recent K
IterationDatasets (K = configured history length, at least 1)" — the most
recent `k` iteration numbers among `1..iteration` (all of them when fewer
than `k` exist). -/
def specMostRecentWindow (iteration k : Nat) : List Nat :=
  pyRange (max 1 (iteration + 1 - k)) (iteration + 1)

/-! ## Theorems -/

/-- C1: for a shared output channel holding two distinct GameRecords at the
moment draining begins, `saveIterationSamples` allocates buffers for both,
but the drain loop — whose bound `i < file_queue.qsize()` re-reads the
shrinking live queue — drains only the first record (row 1 of the buffers
stays zero), and persistence then cuts the buffers further to
`tensor[:1]`: a single record.  The persisted count (1) differs from the
enqueued count (2), so the round-trip property the spec states fails on
the code. -/
theorem saveIterationSamples_truncates_to_one :
    (drainLoop 0 [(⟨[1], [1], 1⟩ : GameRecord), ⟨[2], [0, 1], -1⟩]
        (List.replicate 2 [], List.replicate 2 [], List.replicate 2 0)).1 = [[1], []] ∧
    saveIterationSamples [⟨[1], [1], 1⟩, ⟨[2], [0, 1], -1⟩] =
      { dataT := [[1]], policyT := [[1]], valueT := [1] } ∧
    ([(⟨[1], [1], 1⟩ : GameRecord), ⟨[2], [0, 1], -1⟩].length = 2 ∧
      (saveIterationSamples [⟨[1], [1], 1⟩, ⟨[2], [0, 1], -1⟩]).dataT.length = 1) := by
  decide

/-- C2: an evaluation match against the best checkpoint in which every game
is a draw (pwins = nwins = 0, 10 draws, threshold 11/20) makes
`compareToBest` raise `ZeroDivisionError` at the win-rate telemetry line
`float(nwins) / (pwins + nwins)` — the run crashes instead of treating the
match as a non-promotion. -/
theorem compareToBest_all_draws_crashes :
    compareToBest ⟨0, 0, 10⟩ (coachInit 1 2 (11 / 20)) = .error .zeroDivision := by
  decide

/-- C5 counterexample: with iteration 2 and configured history length
K = 1, `train` loads the datasets of iterations 1 and 2 — two datasets,
not the most recent one — so the handed-off set is not the most recent K
IterationDatasets. -/
theorem trainWindow_loads_more_than_lastK :
    trainWindow 2 1 = [1, 2] ∧
    specMostRecentWindow 2 1 = [2] ∧
    trainLoadedDatasets (fun i => [⟨[(i : Int)], [], 0⟩]) 2 1 =
      [[⟨[1], [], 0⟩], [⟨[2], [], 0⟩]] ∧
    trainWindow 2 1 ≠ specMostRecentWindow 2 1 := by
  decide

/-- C5 (amended): for every iteration I and history length K, the Training
step hands the trainer the datasets of the most recent K + 1 iterations
(all existing ones when I ≤ K) — one more than the configured history
length. -/
theorem trainLoadedDatasets_eq_mostRecent_succ
    (dataOnDisk : Nat → List GameRecord) (iteration hist : Nat) :
    trainLoadedDatasets dataOnDisk iteration hist =
      (specMostRecentWindow iteration (hist + 1)).map dataOnDisk := by
  unfold trainLoadedDatasets trainWindow specMostRecentWindow
  have h : iteration + 1 - (hist + 1) = iteration - hist := by omega
  rw [h]

/-- C3: a trace in which the single worker enqueues its final ReadySignal
and increments CompletionCounter before the server's next poll.  The poll
sees `completed = workers` and the loop returns with the signal still
enqueued; slot 0's event is still pending; `killSelfPlayAgents` then joins
and replaces the queue without servicing anything (the ghost service log
stays empty), so the trailing signal is never serviced and a worker blocked
on its event would block forever. -/
theorem trailing_ready_signal_not_serviced :
    (processSelfPlayBatches (fun b => (b, b)) 1
        [SchedStep.enqueue 0, SchedStep.complete, SchedStep.poll]
        (freshLoopState 1 2 3)).queue = [0] ∧
    (processSelfPlayBatches (fun b => (b, b)) 1
        [SchedStep.enqueue 0, SchedStep.complete, SchedStep.poll]
        (freshLoopState 1 2 3)).events = [false] ∧
    (processSelfPlayBatches (fun b => (b, b)) 1
        [SchedStep.enqueue 0, SchedStep.complete, SchedStep.poll]
        (freshLoopState 1 2 3)).served = [] ∧
    (killSelfPlayAgents (processSelfPlayBatches (fun b => (b, b)) 1
        [SchedStep.enqueue 0, SchedStep.complete, SchedStep.poll]
        (freshLoopState 1 2 3))).served = [] ∧
    (killSelfPlayAgents (processSelfPlayBatches (fun b => (b, b)) 1
        [SchedStep.enqueue 0, SchedStep.complete, SchedStep.poll]
        (freshLoopState 1 2 3))).queue = [] := by
  decide

/-- C6: on a dequeued ReadySignal carrying slot id `id`, one server poll
consumes exactly that signal, runs the forward pass on slot `id`'s input
buffer, copies the two outputs into slot `id`'s output buffers, sets slot
`id`'s event to ready (appending `id` to the ghost service log exactly
once), leaves every other slot's event untouched, and the rest of the loop
— including the next dequeue — continues from this fully serviced state. -/
theorem serverPoll_services_signal (net : List Rat → List Rat × List Rat)
    (workers : Nat) (s : LoopState) (id : Nat) (rest : List Nat) (r : List SchedStep)
    (h : s.queue = id :: rest) (hc : s.completed ≠ workers) :
    serverPoll net s =
      { s with queue := rest,
               policyT := s.policyT.set id (net (s.inputT.getD id [])).1,
               valueT := s.valueT.set id (net (s.inputT.getD id [])).2,
               events := s.events.set id true,
               served := s.served ++ [id] } ∧
    (∀ j, j ≠ id → ((serverPoll net s).events)[j]? = (s.events)[j]?) ∧
    processSelfPlayBatches net workers (SchedStep.poll :: r) s =
      processSelfPlayBatches net workers r (serverPoll net s) := by
  have h1 : serverPoll net s =
      { s with queue := rest,
               policyT := s.policyT.set id (net (s.inputT.getD id [])).1,
               valueT := s.valueT.set id (net (s.inputT.getD id [])).2,
               events := s.events.set id true,
               served := s.served ++ [id] } := by
    unfold serverPoll
    rw [h]
  refine ⟨h1, ?_, ?_⟩
  · intro j hj
    rw [h1]
    exact List.getElem?_set_ne (Ne.symm hj)
  · show (if s.completed = workers then s
      else processSelfPlayBatches net workers r (serverPoll net s)) = _
    rw [if_neg hc]

/-- Witness for C6: a one-slot state with a pending signal for slot 0. -/
theorem serverPoll_services_signal_witness :
    (({ queue := [0], inputT := [[5]], policyT := [[0]], valueT := [[0]],
        events := [false], completed := 0, gamesPlayed := 0,
        served := [] } : LoopState).queue = 0 :: []) ∧
    (({ queue := [0], inputT := [[5]], policyT := [[0]], valueT := [[0]],
        events := [false], completed := 0, gamesPlayed := 0,
        served := [] } : LoopState).completed ≠ 1) ∧
    serverPoll (fun b => (b, [7]))
        ({ queue := [0], inputT := [[5]], policyT := [[0]], valueT := [[0]],
           events := [false], completed := 0, gamesPlayed := 0,
           served := [] } : LoopState) =
      { ({ queue := [0], inputT := [[5]], policyT := [[0]], valueT := [[0]],
           events := [false], completed := 0, gamesPlayed := 0,
           served := [] } : LoopState) with
        queue := [],
        policyT := [[0]].set 0 [5],
        valueT := [[0]].set 0 [7],
        events := [false].set 0 true,
        served := [] ++ [0] } := by
  refine ⟨rfl, by decide, ?_⟩
  exact (serverPoll_services_signal (fun b => (b, [7])) 1
    { queue := [0], inputT := [[5]], policyT := [[0]], valueT := [[0]],
      events := [false], completed := 0, gamesPlayed := 0, served := [] }
    0 [] [] rfl (by decide)).1

/-- C7: a timed-out bounded-wait dequeue (empty ready queue) is not an
error: the poll performs no evaluation and leaves the server state
unchanged, the loop re-enters on the remaining trace, and the loop body
only returns once the completion counter equals the configured worker
count (a poll with `completed = workers` exits, one with an empty queue
and `completed ≠ workers` just re-loops). -/
theorem timeout_polls_not_error (net : List Rat → List Rat × List Rat)
    (workers : Nat) (s : LoopState) (r : List SchedStep) (hq : s.queue = []) :
    serverPoll net s = s ∧
    (s.completed ≠ workers →
      processSelfPlayBatches net workers (SchedStep.poll :: r) s =
        processSelfPlayBatches net workers r s) ∧
    (s.completed = workers →
      processSelfPlayBatches net workers (SchedStep.poll :: r) s = s) := by
  have hp : serverPoll net s = s := by
    unfold serverPoll
    rw [hq]
  refine ⟨hp, ?_, ?_⟩
  · intro hc
    show (if s.completed = workers then s
      else processSelfPlayBatches net workers r (serverPoll net s)) = _
    rw [if_neg hc, hp]
  · intro hc
    show (if s.completed = workers then s
      else processSelfPlayBatches net workers r (serverPoll net s)) = s
    rw [if_pos hc]

/-- Witness for C7: two workers, none completed, empty queue — the poll
times out and the loop simply re-enters. -/
theorem timeout_polls_not_error_witness :
    (freshLoopState 2 1 1).queue = [] ∧
    processSelfPlayBatches (fun b => (b, b)) 2 [SchedStep.poll] (freshLoopState 2 1 1) =
      processSelfPlayBatches (fun b => (b, b)) 2 [] (freshLoopState 2 1 1) :=
  ⟨rfl, (timeout_polls_not_error (fun b => (b, b)) 2 (freshLoopState 2 1 1) [] rfl).2.1
    (by decide)⟩

/-- C8: after an iteration, `killSelfPlayAgents` resets every slot's event
to pending and both shared counters to 0, producing a state
indistinguishable from a freshly constructed one (any fresh buffer shapes)
modulo the buffer contents — and the three tensor buffers themselves are
reused untouched, never reallocated. -/
theorem killSelfPlayAgents_fresh_slot (s : LoopState) (n cells acts : Nat)
    (h : s.events.length = n) :
    equivModBuffers (killSelfPlayAgents s) (freshLoopState n cells acts) ∧
    (killSelfPlayAgents s).inputT = s.inputT ∧
    (killSelfPlayAgents s).policyT = s.policyT ∧
    (killSelfPlayAgents s).valueT = s.valueT := by
  refine ⟨⟨?_, rfl, rfl, rfl⟩, rfl, rfl, rfl⟩
  show List.replicate s.events.length false = List.replicate n false
  rw [h]

/-- Witness for C8: a mid-run two-slot state resets to the fresh state. -/
theorem killSelfPlayAgents_fresh_slot_witness :
    equivModBuffers
      (killSelfPlayAgents
        ({ queue := [1], inputT := [[3], [4]], policyT := [[5], [6]],
           valueT := [[7], [8]], events := [true, false], completed := 2,
           gamesPlayed := 9, served := [0, 1] } : LoopState))
      (freshLoopState 2 1 1) :=
  (killSelfPlayAgents_fresh_slot
    { queue := [1], inputT := [[3], [4]], policyT := [[5], [6]],
      valueT := [[7], [8]], events := [true, false], completed := 2,
      gamesPlayed := 9, served := [0, 1] } 2 1 1 rfl).1

/-- C4 counterexample: with 5 wins, 5 losses and threshold 1/2, the win
rate equals the threshold — it does not exceed it — yet `compareToBest`
promotes (saves the current weights as `iteration-best.pkl`), because the
code's guard `not (decisive > 0 and rate < threshold)` accepts on
`rate = threshold`. -/
theorem compareToBest_promotes_at_exact_threshold :
    compareToBest ⟨5, 5, 0⟩ (coachInit 3 4 (1 / 2)) =
      .ok { nnetW := 3, pnetW := 3,
            checkpoints := [(bestName, 3), (bestName, 3)],
            updateThreshold := 1 / 2 } ∧
    ¬ ((5 : Rat) / ((5 : Rat) + (5 : Rat)) > (1 / 2 : Rat)) := by
  constructor
  · simp [compareToBest, coachInit, loadCheckpoint, saveCheckpoint, List.lookup]
    norm_num
  · norm_num

/-- C4 (amended): whenever the best checkpoint loads and at least one game
is decisive, `compareToBest` promotes the updated model (overwriting
`iteration-best.pkl` with the current weights) exactly when its win rate
over decisive games is at least (≥, not strictly above) the configured
threshold; otherwise the checkpoint folder is unchanged.  In particular
6 wins / 4 losses at threshold 11/20 promotes (win rate 3/5 ≥ 11/20). -/
theorem compareToBest_promotes_iff (a : ArenaResult) (s : CoachState) (w : Nat)
    (hload : loadCheckpoint s.checkpoints bestName = some w)
    (hdec : 0 < a.pwins + a.nwins) :
    compareToBest a s =
      if s.updateThreshold ≤ (a.nwins : Rat) / ((a.pwins : Rat) + (a.nwins : Rat)) then
        .ok { s with pnetW := w,
                     checkpoints := saveCheckpoint s.checkpoints bestName s.nnetW }
      else .ok { s with pnetW := w } := by
  have hz : ¬ (a.pwins + a.nwins = 0) := Nat.pos_iff_ne_zero.mp hdec
  by_cases hr : (a.nwins : Rat) / ((a.pwins : Rat) + (a.nwins : Rat)) < s.updateThreshold
  · rw [if_neg (not_le.mpr hr)]
    simp only [compareToBest, hload]
    rw [if_neg hz, if_pos ⟨hdec, hr⟩]
  · rw [if_pos (not_lt.mp hr)]
    simp only [compareToBest, hload]
    rw [if_neg hz, if_neg (fun hc => hr hc.2)]

/-- Witness for C4: scenario B of the spec — 10 games, 6 decisive wins for
the new model, 4 losses, threshold 11/20. -/
theorem compareToBest_promotes_iff_witness :
    loadCheckpoint (coachInit 3 4 (11 / 20)).checkpoints bestName = some 3 ∧
    0 < (ArenaResult.mk 4 6 0).pwins + (ArenaResult.mk 4 6 0).nwins ∧
    compareToBest ⟨4, 6, 0⟩ (coachInit 3 4 (11 / 20)) =
      if (coachInit 3 4 (11 / 20)).updateThreshold ≤
          (((ArenaResult.mk 4 6 0).nwins : Rat) /
            (((ArenaResult.mk 4 6 0).pwins : Rat) + ((ArenaResult.mk 4 6 0).nwins : Rat))) then
        .ok { coachInit 3 4 (11 / 20) with
              pnetW := 3,
              checkpoints := saveCheckpoint (coachInit 3 4 (11 / 20)).checkpoints bestName
                (coachInit 3 4 (11 / 20)).nnetW }
      else .ok { coachInit 3 4 (11 / 20) with pnetW := 3 } :=
  ⟨rfl, by decide,
    compareToBest_promotes_iff ⟨4, 6, 0⟩ (coachInit 3 4 (11 / 20)) 3 rfl (by decide)⟩

/-- Saving any checkpoint preserves loadability of any filename. -/
theorem lookup_isSome_after_save (st : List (String × Nat)) (k n : String) (w : Nat)
    (h : (loadCheckpoint st k).isSome = true) :
    (loadCheckpoint (saveCheckpoint st n w) k).isSome = true := by
  unfold loadCheckpoint at *
  unfold saveCheckpoint
  by_cases hk : k = n
  · subst hk
    simp [List.lookup_cons]
  · simp [List.lookup_cons, beq_false_of_ne hk, h]

/-- Every `learn`-loop operation preserves loadability of the best
checkpoint: saves only add entries, loads change nothing, and the error
paths leave the folder as it was. -/
theorem applyOp_preserves_best (op : CoachOp) (s : CoachState)
    (h : (loadCheckpoint s.checkpoints bestName).isSome = true) :
    (loadCheckpoint (applyOp op s).checkpoints bestName).isSome = true := by
  obtain ⟨w, hw⟩ := Option.isSome_iff_exists.mp h
  cases op with
  | trainOp wN i =>
    exact lookup_isSome_after_save _ _ _ _ h
  | cmpRandom a =>
    simp only [applyOp, compareToRandom, hw]
    by_cases hz : a.pwins + a.nwins = 0
    · rw [if_pos hz]
      exact h
    · rw [if_neg hz]
      exact h
  | cmpGreedy a =>
    simp only [applyOp, compareToGreedy, hw]
    by_cases hz : a.pwins + a.nwins = 0
    · rw [if_pos hz]
      exact h
    · rw [if_neg hz]
      exact h
  | cmpBest a =>
    simp only [applyOp, compareToBest, hw]
    by_cases hz : a.pwins + a.nwins = 0
    · rw [if_pos hz]
      exact h
    · rw [if_neg hz]
      by_cases hr : 0 < a.pwins + a.nwins ∧
          (a.nwins : Rat) / ((a.pwins : Rat) + (a.nwins : Rat)) < s.updateThreshold
      · rw [if_pos hr]
        exact h
      · rw [if_neg hr]
        exact lookup_isSome_after_save _ _ _ _ h

/-- Any sequence of `learn`-loop operations preserves loadability of the
best checkpoint. -/
theorem runOps_preserves_best (ops : List CoachOp) :
    ∀ s : CoachState, (loadCheckpoint s.checkpoints bestName).isSome = true →
      (loadCheckpoint (runOps ops s).checkpoints bestName).isSome = true := by
  induction ops with
  | nil => exact fun s h => h
  | cons op rest ih =>
    intro s h
    exact ih (applyOp op s) (applyOp_preserves_best op s h)

/-- A baseline or best comparison on a state whose best checkpoint loads
never fails with a missing file: it either succeeds or raises the
(separately diagnosed) division by zero. -/
theorem compare_load_never_missing (a : ArenaResult) (s : CoachState)
    (h : (loadCheckpoint s.checkpoints bestName).isSome = true) :
    ((∃ t, compareToRandom a s = .ok t) ∨ compareToRandom a s = .error .zeroDivision) ∧
    ((∃ t, compareToGreedy a s = .ok t) ∨ compareToGreedy a s = .error .zeroDivision) ∧
    ((∃ t, compareToBest a s = .ok t) ∨ compareToBest a s = .error .zeroDivision) := by
  obtain ⟨w, hw⟩ := Option.isSome_iff_exists.mp h
  refine ⟨?_, ?_, ?_⟩
  · simp only [compareToRandom, hw]
    by_cases hz : a.pwins + a.nwins = 0
    · rw [if_pos hz]
      exact Or.inr rfl
    · rw [if_neg hz]
      exact Or.inl ⟨_, rfl⟩
  · simp only [compareToGreedy, hw]
    by_cases hz : a.pwins + a.nwins = 0
    · rw [if_pos hz]
      exact Or.inr rfl
    · rw [if_neg hz]
      exact Or.inl ⟨_, rfl⟩
  · simp only [compareToBest, hw]
    by_cases hz : a.pwins + a.nwins = 0
    · rw [if_pos hz]
      exact Or.inr rfl
    · rw [if_neg hz]
      by_cases hr : 0 < a.pwins + a.nwins ∧
          (a.nwins : Rat) / ((a.pwins : Rat) + (a.nwins : Rat)) < s.updateThreshold
      · rw [if_pos hr]
        exact Or.inl ⟨_, rfl⟩
      · rw [if_neg hr]
        exact Or.inl ⟨_, rfl⟩

/-- C9: `coachInit` saves the initial weights as `iteration-best.pkl`
before any iteration runs, and after any interleaving of `learn`-loop
operations the best checkpoint is still loadable, so the load at the top
of `compareToBest`, `compareToRandom` and `compareToGreedy` always finds
an existing checkpoint (the only possible failure of those methods is the
separately diagnosed division by zero), including in the very first
iteration. -/
theorem bestCheckpoint_always_loadable (w0 p0 : Nat) (t : Rat) (ops : List CoachOp)
    (a : ArenaResult) :
    loadCheckpoint (coachInit w0 p0 t).checkpoints bestName = some w0 ∧
    (loadCheckpoint (runOps ops (coachInit w0 p0 t)).checkpoints bestName).isSome = true ∧
    ((∃ s, compareToRandom a (runOps ops (coachInit w0 p0 t)) = .ok s) ∨
      compareToRandom a (runOps ops (coachInit w0 p0 t)) = .error .zeroDivision) ∧
    ((∃ s, compareToGreedy a (runOps ops (coachInit w0 p0 t)) = .ok s) ∨
      compareToGreedy a (runOps ops (coachInit w0 p0 t)) = .error .zeroDivision) ∧
    ((∃ s, compareToBest a (runOps ops (coachInit w0 p0 t)) = .ok s) ∨
      compareToBest a (runOps ops (coachInit w0 p0 t)) = .error .zeroDivision) := by
  have h0 : loadCheckpoint (coachInit w0 p0 t).checkpoints bestName = some w0 := by
    show List.lookup bestName ((bestName, w0) :: []) = some w0
    simp [List.lookup_cons]
  have h1 := runOps_preserves_best ops (coachInit w0 p0 t) (by rw [h0]; rfl)
  obtain ⟨hr, hg, hb⟩ := compare_load_never_missing a (runOps ops (coachInit w0 p0 t)) h1
  exact ⟨h0, h1, hr, hg, hb⟩

/-- C10: the baseline comparisons against the random and the greedy player
only record telemetry — whatever the arena outcome, they save, overwrite
and delete no checkpoint (the folder is exactly as before) and leave the
current network weights unchanged. -/
theorem compareBaselines_no_checkpoint_effect (a : ArenaResult) (s t : CoachState) :
    (compareToRandom a s = .ok t → t.checkpoints = s.checkpoints ∧ t.nnetW = s.nnetW) ∧
    (compareToGreedy a s = .ok t → t.checkpoints = s.checkpoints ∧ t.nnetW = s.nnetW) := by
  constructor
  · intro h
    rcases hl : loadCheckpoint s.checkpoints bestName with _ | w <;>
      simp only [compareToRandom, hl] at h
    · cases h
    · by_cases hz : a.pwins + a.nwins = 0
      · rw [if_pos hz] at h
        cases h
      · rw [if_neg hz] at h
        cases h
        exact ⟨rfl, rfl⟩
  · intro h
    rcases hl : loadCheckpoint s.checkpoints bestName with _ | w <;>
      simp only [compareToGreedy, hl] at h
    · cases h
    · by_cases hz : a.pwins + a.nwins = 0
      · rw [if_pos hz] at h
        cases h
      · rw [if_neg hz] at h
        cases h
        exact ⟨rfl, rfl⟩

/-- Witness for C10: a concrete baseline match (3 random wins, 4 new-model
wins) leaves the checkpoint folder and current weights untouched. -/
theorem compareBaselines_no_checkpoint_effect_witness :
    ({ coachInit 5 7 (1 / 2) with pnetW := 5 } : CoachState).checkpoints =
        (coachInit 5 7 (1 / 2)).checkpoints ∧
    ({ coachInit 5 7 (1 / 2) with pnetW := 5 } : CoachState).nnetW =
        (coachInit 5 7 (1 / 2)).nnetW :=
  (compareBaselines_no_checkpoint_effect ⟨3, 4, 0⟩ (coachInit 5 7 (1 / 2))
    { coachInit 5 7 (1 / 2) with pnetW := 5 }).1 rfl

end FastAlphaZero
